import Mathlib

/-!
Shallow embedding of the parameter-addressed write-once cache in
`aconai/pipelines/data_registry.py` and `aconai/pipelines/data_provider.py`,
together with theorems settling the specification claims about it.

Modelling conventions:
* Python string-keyed `dict` values become insertion-ordered association
  lists with unique keys (`dictFind` is lookup, `dictSet` is in-place update
  or append, the observable behaviour of `d[k]` reads and writes).
* Avro schemas and parameter dictionaries are abstract types `σ` and `π`
  with decidable structural equality; storing a schema as JSON and parsing
  it back (`schema.to_json()` / `parse(json.dumps(...))`) is modelled as
  storing the value itself, assuming the avro serialisation round-trip law.
* The persisted index document always mirrors the in-memory index
  (`_update_registry` rewrites it after every mutation), so one state field
  stands for both.
* Exceptions become `Except PyError`; Python mutations performed before a
  raise are kept, so every operation also returns the post-state.
-/

namespace Aconai

/-- Error values corresponding to the Python exceptions the code can raise. -/
inductive PyError where
  | valueError (msg : String)
  | keyError (key : String)
  | fileNotFoundError (file : String)
deriving DecidableEq, Repr

/-- Return value of `register` and `mark_written`
(dataclass `RegisteredFile`, data_registry.py lines 7-10). -/
structure RegisteredFile where
  file_name : String
  is_marked_written : Bool
deriving DecidableEq, Repr

/-- One slot record stored under a key's "files" list
(the dict literal appended at data_registry.py lines 152-156). -/
structure FileSlot (π : Type) where
  file_name : String
  parameters : π
  is_marked_written : Bool
deriving DecidableEq, Repr

/-- A registry entry: the schema adopted for a key plus its slots
(the dict literal at data_registry.py lines 69-72). -/
structure RegistryEntry (σ π : Type) where
  schema : σ
  files : List (FileSlot π)
deriving DecidableEq, Repr

/-- The index `self.registry`: an insertion-ordered string-keyed dictionary
from logical keys to entries. -/
abbrev Registry (σ π : Type) := List (String × RegistryEntry σ π)

/-- Lookup in an insertion-ordered dictionary (Python `d[k]` / `k in d`). -/
def dictFind {α : Type} : List (String × α) → String → Option α
  | [], _ => none
  | (k', v) :: rest, k => if k' = k then some v else dictFind rest k

/-- Update in an insertion-ordered dictionary (`d[k] = v`): replaces the
binding in place when the key is present, otherwise appends it. -/
def dictSet {α : Type} : List (String × α) → String → α → List (String × α)
  | [], k, v => [(k, v)]
  | (k', v') :: rest, k, v =>
      if k' = k then (k, v) :: rest else (k', v') :: dictSet rest k v

/-- Python string comparison `a < b` on character lists: lexicographic by
code point, a proper prefix sorting first. -/
def pyCharsLt : List Char → List Char → Bool
  | [], [] => false
  | [], _ :: _ => true
  | _ :: _, [] => false
  | a :: as, b :: bs =>
      if a.toNat < b.toNat then true
      else if b.toNat < a.toNat then false
      else pyCharsLt as bs

/-- Python string comparison `a < b` by Unicode code point. -/
def pyStrLt (a b : String) : Bool :=
  pyCharsLt a.data b.data

/-- Python `max` over a non-empty list of strings: lexicographic maximum by
code point, keeping the earliest maximum (`""` on `[]`, a case the calling
code guards against). -/
def pyStrMax : List String → String
  | [] => ""
  | x :: rest => rest.foldl (fun a b => if pyStrLt a b then b else a) x

/-- Root part of `os.path.splitext`: everything before the last dot, the
whole string when there is no dot.  (The Python original only looks for
dots inside the last path component; every file name reaching this helper
ends in ".avro", where the two agree.) -/
def splitextRoot (s : String) : String :=
  match s.data.reverse.dropWhile (fun c => c ≠ '.') with
  | [] => s
  | _ :: rest => String.mk rest.reverse

/-- Python `s.split("_")[-1]`: the segment after the last underscore, the
whole string when there is none. -/
def lastUnderscoreSeg (s : String) : String :=
  String.mk ((s.data.reverse.takeWhile (fun c => c ≠ '_')).reverse)

/-- Python `int(s)` on the digit strings produced here; `none` models the
`ValueError` raised on a non-numeric literal.  (Python `int` also accepts
signs and surrounding whitespace; no such segment is ever produced by the
registry's file names.) -/
def pyInt? (s : String) : Option Nat :=
  if s.data ≠ [] ∧ s.data.all (fun c => c.isDigit) then
    some (s.data.foldl (fun n c => n * 10 + (c.toNat - 48)) 0)
  else none

/-- Next file name chosen by `register` (data_registry.py lines 144-150):
`"data_0.avro"` for an empty list, otherwise one plus the numeric suffix of
the lexicographically greatest existing (full-path) name. -/
def nextDataFile (files : List String) : Except PyError String :=
  if files.isEmpty then .ok "data_0.avro"
  else
    let latest := pyStrMax files
    let root := splitextRoot latest
    let seg := lastUnderscoreSeg root
    match pyInt? seg with
    | none => .error (.valueError ("invalid literal for int with base 10: " ++ seg))
    | some num => .ok ("data_" ++ Nat.repr (num + 1) ++ ".avro")

/-- Directory for a key (`_ensure_path_exists`, data_registry.py lines
83-96): dots in the key become path separators under the data directory.
Directory creation itself is a filesystem effect with no registry state. -/
def keyPath (data_dir key : String) : String :=
  data_dir ++ "/" ++ String.mk (key.data.map (fun c => if c = '.' then '/' else c))

/-- The registry object: its configured directory and its index.  The index
is rewritten to disk after every mutation (`_update_registry`), so this one
field models both the in-memory and the persisted state. -/
structure DataRegistry (σ π : Type) where
  data_dir : String
  registry : Registry σ π
deriving DecidableEq, Repr

/-- The method `_validate_schema` (data_registry.py lines 57-81): an unseen
key is adopted with the given schema and no files (and the index
persisted); a seen key validates by structural schema equality.  Returns
the Python boolean and the possibly-extended index. -/
def validate_schema {σ π : Type} [DecidableEq σ] (reg : Registry σ π)
    (key : String) (schema : σ) : Bool × Registry σ π :=
  match dictFind reg key with
  | none => (true, dictSet reg key ⟨schema, []⟩)
  | some entry => (decide (entry.schema = schema), reg)

/-- The method `register` (data_registry.py lines 116-158).  Validates the
schema, returns the existing slot when one has structurally equal
parameters, and otherwise allocates the next file name, appends an
unwritten slot and persists.  The post-state is returned even on error,
since Python raises after any mutation already performed. -/
def register {σ π : Type} [DecidableEq σ] [DecidableEq π]
    (r : DataRegistry σ π) (key : String) (schema : σ) (params : π) :
    Except PyError RegisteredFile × DataRegistry σ π :=
  let vr := validate_schema r.registry key schema
  if vr.1 then
    match dictFind vr.2 key with
    | none => (.error (.keyError key), { r with registry := vr.2 })
    | some entry =>
      match entry.files.find? (fun f => decide (f.parameters = params)) with
      | some f =>
          (.ok ⟨f.file_name, f.is_marked_written⟩, { r with registry := vr.2 })
      | none =>
        let files := entry.files.map (fun f => f.file_name)
        let path := keyPath r.data_dir key
        match nextDataFile files with
        | .error e => (.error e, { r with registry := vr.2 })
        | .ok latest =>
          let file_name := path ++ "/" ++ latest
          let entry2 : RegistryEntry σ π :=
            { entry with files := entry.files ++ [⟨file_name, params, false⟩] }
          (.ok ⟨file_name, false⟩, { r with registry := dictSet vr.2 key entry2 })
  else
    (.error (.valueError ("Schema for " ++ key ++ " is not valid.")),
     { r with registry := vr.2 })

/-- The in-place flag update performed by the loop of `mark_written`: set
`is_marked_written := true` on the first slot with the given file name;
`none` when no slot matches. -/
def setFirstWritten {π : Type} :
    List (FileSlot π) → String → Option (List (FileSlot π))
  | [], _ => none
  | f :: rest, file_name =>
      if f.file_name = file_name then
        some ({ f with is_marked_written := true } :: rest)
      else
        (setFirstWritten rest file_name).map (fun rest' => f :: rest')

/-- The method `mark_written` (data_registry.py lines 160-178): find the
slot by exact file name under the key, set its flag, persist, and return
the updated descriptor; raise `ValueError` when no slot matches and
`KeyError` when the key itself was never registered. -/
def mark_written {σ π : Type} (r : DataRegistry σ π) (key file_name : String) :
    Except PyError RegisteredFile × DataRegistry σ π :=
  match dictFind r.registry key with
  | none => (.error (.keyError key), r)
  | some entry =>
    match setFirstWritten entry.files file_name with
    | none =>
        (.error (.valueError ("File " ++ file_name ++ " not found in registry.")), r)
    | some files' =>
        (.ok ⟨file_name, true⟩,
         { r with registry := dictSet r.registry key { entry with files := files' } })

/-- The filesystem facts `DataRegistry.__init__` consults: whether the data
directory exists, and the parsed index document when `data_registry.json`
is present in it. -/
structure InitFs (σ π : Type) where
  dir_exists : Bool
  index_doc : Option (Registry σ π)

/-- Construction with a resolved directory (data_registry.py lines 47-55):
a missing directory is created with an empty persisted index; an existing
directory must already hold the index document, which is loaded, and a
missing document raises `FileNotFoundError` from `open`. -/
def initWithDir {σ π : Type} (d : String) (fs : InitFs σ π) :
    Except PyError (DataRegistry σ π) :=
  if fs.dir_exists then
    match fs.index_doc with
    | none => .error (.fileNotFoundError (d ++ "/data_registry.json"))
    | some reg => .ok ⟨d, reg⟩
  else
    .ok ⟨d, []⟩

/-- The constructor `DataRegistry.__init__` (data_registry.py lines 33-55):
the directory comes from the explicit argument, else from the
`DATA_CACHE_DIR` environment variable, and the absence of both raises
`ValueError` before anything else happens. -/
def DataRegistry.init {σ π : Type} (data_dir env_data_cache_dir : Option String)
    (fs : InitFs σ π) : Except PyError (DataRegistry σ π) :=
  match data_dir with
  | some d => initWithDir d fs
  | none =>
    match env_data_cache_dir with
    | none => .error (.valueError "Environment variable DATA_CACHE_DIR is not set.")
    | some d => initWithDir d fs

/-- The record store: file contents by file name (the avro container files
the provider writes and reads back). -/
abbrev Fs (ρ : Type) := List (String × List ρ)

/-- A concrete `DataProvider` configuration: its registry key, parsed
schema, parameters, and the behaviour of `get_records()` — the records it
yields followed by an optional exception raised after yielding them
(`none` means the iterator completes).  `convert` is `record_as_type`. -/
structure Provider (σ π ρ τ : Type) where
  key : String
  schema : σ
  params : π
  records : List ρ
  fails : Option PyError
  convert : ρ → τ

/-- Joint state cached reads act on: the registry and the record files. -/
structure PState (σ π ρ : Type) where
  reg : DataRegistry σ π
  fs : Fs ρ

/-- The method `cached_read` (data_provider.py lines 23-43).  Registers the
slot; when it is unwritten, opens the file for (truncating) write, streams
`get_records()` into it, and on completion of the whole sequence marks the
slot written; finally reads the file back, converting each record.  The
third component records whether `get_records()` was invoked during this
call.  Errors propagate, with all state mutations already performed kept. -/
def cached_read {σ π ρ τ : Type} [DecidableEq σ] [DecidableEq π]
    (p : Provider σ π ρ τ) (st : PState σ π ρ) :
    Except PyError (List τ) × PState σ π ρ × Bool :=
  match register st.reg p.key p.schema p.params with
  | (.error e, reg') => (.error e, ⟨reg', st.fs⟩, false)
  | (.ok rf, reg') =>
    if rf.is_marked_written then
      match dictFind st.fs rf.file_name with
      | none => (.error (.fileNotFoundError rf.file_name), ⟨reg', st.fs⟩, false)
      | some recs => (.ok (recs.map p.convert), ⟨reg', st.fs⟩, false)
    else
      let fs' := dictSet st.fs rf.file_name p.records
      match p.fails with
      | some e => (.error e, ⟨reg', fs'⟩, true)
      | none =>
        match mark_written reg' p.key rf.file_name with
        | (.error e, reg2) => (.error e, ⟨reg2, fs'⟩, true)
        | (.ok _, reg2) =>
          match dictFind fs' rf.file_name with
          | none => (.error (.fileNotFoundError rf.file_name), ⟨reg2, fs'⟩, true)
          | some recs => (.ok (recs.map p.convert), ⟨reg2, fs'⟩, true)

instance {ε α : Type} [DecidableEq ε] [DecidableEq α] : DecidableEq (Except ε α) :=
  fun a b =>
    match a, b with
    | .ok x, .ok y =>
        if h : x = y then .isTrue (by rw [h])
        else .isFalse (by intro c; cases c; exact h rfl)
    | .error x, .error y =>
        if h : x = y then .isTrue (by rw [h])
        else .isFalse (by intro c; cases c; exact h rfl)
    | .ok _, .error _ => .isFalse (by intro c; cases c)
    | .error _, .ok _ => .isFalse (by intro c; cases c)

/-- One step of repeated registration under the key `"k"` with schema `"s"`
and parameter map `i`, in a registry rooted at `"d"`. -/
def distinctParamStep (r : DataRegistry String Nat) (i : Nat) : DataRegistry String Nat :=
  (register r "k" "s" i).2

/-- The registry after `n` registrations under `"k"` with the distinct
parameter maps `0, 1, ..., n-1`, starting from a fresh empty registry. -/
def distinctParamState (n : Nat) : DataRegistry String Nat :=
  (List.range n).foldl distinctParamStep ⟨"d", []⟩

/-- A `DataProvider` configuration on key `"k"`, schema `"s"`, parameter
map `i`, whose `get_records()` successfully yields the single record `i`. -/
def collProvider (i : Nat) : Provider String Nat Nat Nat :=
  ⟨"k", "s", i, [i], none, id⟩

/-- One `cached_read` of `collProvider i`, keeping the resulting state. -/
def collStep (st : PState String Nat Nat) (i : Nat) : PState String Nat Nat :=
  (cached_read (collProvider i) st).2.1

/-- The state after the providers with parameter maps `0, ..., 10` have
each completed one `cached_read` from a fresh state: eleven written slots
named `data_0.avro` through `data_10.avro` under key `"k"`. -/
def collState11 : PState String Nat Nat :=
  (List.range 11).foldl collStep ⟨⟨"d", []⟩, []⟩

/-- Per-slot evolution allowed by the registry: name and parameters are
fixed and the written flag only goes from false to true. -/
def slotLe {π : Type} (f g : FileSlot π) : Prop :=
  g.file_name = f.file_name ∧ g.parameters = f.parameters ∧
    (f.is_marked_written = true → g.is_marked_written = true)

/-- Per-entry evolution: the schema is fixed and every existing slot
position survives, evolving by `slotLe` (new slots may be appended). -/
def entryLe {σ π : Type} (e e' : RegistryEntry σ π) : Prop :=
  e'.schema = e.schema ∧
    ∀ (i : Nat) (f : FileSlot π), e.files[i]? = some f →
      ∃ g, e'.files[i]? = some g ∧ slotLe f g

/-- Index evolution: every key present stays present and its entry evolves
by `entryLe`. -/
def regLe {σ π : Type} (r r' : Registry σ π) : Prop :=
  ∀ k e, dictFind r k = some e → ∃ e', dictFind r' k = some e' ∧ entryLe e e'

/-- An arbitrary registry operation, for stating properties of every
sequence of `register` and `mark_written` calls. -/
inductive RegOp (σ π : Type) where
  | reg (key : String) (schema : σ) (params : π)
  | mark (key : String) (file_name : String)

/-- Apply one registry operation, keeping its state effect. -/
def applyOp {σ π : Type} [DecidableEq σ] [DecidableEq π]
    (r : DataRegistry σ π) : RegOp σ π → DataRegistry σ π
  | .reg key schema params => (register r key schema params).2
  | .mark key file_name => (mark_written r key file_name).2

/-- Registry with one key `"k"`, schema `"s"` and two slots, used as the
concrete input of several witnesses. -/
def twoSlotEntry : RegistryEntry String Nat :=
  ⟨"s", [⟨"d/k/data_0.avro", 0, true⟩, ⟨"d/k/data_1.avro", 1, false⟩]⟩

/-- A registry object holding `twoSlotEntry` under key `"k"`. -/
def twoSlotReg : DataRegistry String Nat := ⟨"d", [("k", twoSlotEntry)]⟩

/-- A provider whose production fails after yielding two records. -/
def failProv : Provider String Nat Nat Nat :=
  ⟨"k", "s", 0, [1, 2], some (.valueError "boom"), id⟩

/-- A fresh state: empty registry rooted at `"d"`, no record files. -/
def emptyState : PState String Nat Nat := ⟨⟨"d", []⟩, []⟩

/-- The registry produced by registering `failProv`'s slot in `emptyState`. -/
def failReg' : DataRegistry String Nat :=
  ⟨"d", [("k", ⟨"s", [⟨"d/k/data_0.avro", 0, false⟩]⟩)]⟩

theorem dictFind_dictSet_self {α : Type} (l : List (String × α)) (k : String) (v : α) :
    dictFind (dictSet l k v) k = some v := by
  induction l with
  | nil => simp [dictSet, dictFind]
  | cons hd tl ih =>
    obtain ⟨k', v'⟩ := hd
    by_cases h : k' = k
    · subst h
      simp [dictSet, dictFind]
    · simp [dictSet, dictFind, h, ih]

theorem dictFind_dictSet_ne {α : Type} (l : List (String × α)) (k k' : String) (v : α)
    (h : k' ≠ k) : dictFind (dictSet l k v) k' = dictFind l k' := by
  induction l with
  | nil => simp [dictSet, dictFind, Ne.symm h]
  | cons hd tl ih =>
    obtain ⟨k0, v0⟩ := hd
    by_cases h0 : k0 = k
    · subst h0
      simp [dictSet, dictFind, Ne.symm h]
    · simp [dictSet, dictFind, h0, ih]

theorem slotLe_refl {π : Type} (f : FileSlot π) : slotLe f f := ⟨rfl, rfl, fun h => h⟩

theorem entryLe_refl {σ π : Type} (e : RegistryEntry σ π) : entryLe e e :=
  ⟨rfl, fun _ f h => ⟨f, h, slotLe_refl f⟩⟩

theorem regLe_refl {σ π : Type} (r : Registry σ π) : regLe r r :=
  fun _ e h => ⟨e, h, entryLe_refl e⟩

theorem slotLe_trans {π : Type} {f g h : FileSlot π} (h1 : slotLe f g) (h2 : slotLe g h) :
    slotLe f h :=
  ⟨h2.1.trans h1.1, h2.2.1.trans h1.2.1, fun w => h2.2.2 (h1.2.2 w)⟩

theorem entryLe_trans {σ π : Type} {e e' e'' : RegistryEntry σ π}
    (h1 : entryLe e e') (h2 : entryLe e' e'') : entryLe e e'' := by
  refine ⟨h2.1.trans h1.1, fun i f hf => ?_⟩
  obtain ⟨g, hg, hfg⟩ := h1.2 i f hf
  obtain ⟨g', hg', hgg'⟩ := h2.2 i g hg
  exact ⟨g', hg', slotLe_trans hfg hgg'⟩

theorem regLe_trans {σ π : Type} {r r' r'' : Registry σ π}
    (h1 : regLe r r') (h2 : regLe r' r'') : regLe r r'' := by
  intro k e he
  obtain ⟨e', he', hee'⟩ := h1 k e he
  obtain ⟨e'', he'', he'e''⟩ := h2 k e' he'
  exact ⟨e'', he'', entryLe_trans hee' he'e''⟩

theorem register_fresh {σ π : Type} [DecidableEq σ] [DecidableEq π]
    (r : DataRegistry σ π) (key : String) (schema : σ) (params : π)
    (hfind : dictFind r.registry key = none) :
    register r key schema params =
      (.ok ⟨keyPath r.data_dir key ++ "/" ++ "data_0.avro", false⟩,
       { r with registry :=
           (dictSet (dictSet r.registry key ⟨schema, []⟩) key
             ⟨schema, [⟨keyPath r.data_dir key ++ "/" ++ "data_0.avro", params, false⟩]⟩) }) := by
  simp [register, validate_schema, hfind, dictFind_dictSet_self, nextDataFile]

theorem register_conflict {σ π : Type} [DecidableEq σ] [DecidableEq π]
    (r : DataRegistry σ π) (key : String) (schema : σ) (params : π)
    (entry : RegistryEntry σ π) (hfind : dictFind r.registry key = some entry)
    (hs : entry.schema ≠ schema) :
    register r key schema params =
      (.error (.valueError ("Schema for " ++ key ++ " is not valid.")), r) := by
  simp [register, validate_schema, hfind, hs]

theorem register_hit {σ π : Type} [DecidableEq σ] [DecidableEq π]
    (r : DataRegistry σ π) (key : String) (schema : σ) (params : π)
    (entry : RegistryEntry σ π) (hfind : dictFind r.registry key = some entry)
    (hs : entry.schema = schema) (f : FileSlot π)
    (hslot : entry.files.find? (fun g => decide (g.parameters = params)) = some f) :
    register r key schema params = (.ok ⟨f.file_name, f.is_marked_written⟩, r) := by
  simp [register, validate_schema, hfind, hs, hslot]

theorem register_alloc {σ π : Type} [DecidableEq σ] [DecidableEq π]
    (r : DataRegistry σ π) (key : String) (schema : σ) (params : π)
    (entry : RegistryEntry σ π) (hfind : dictFind r.registry key = some entry)
    (hs : entry.schema = schema)
    (hslot : entry.files.find? (fun g => decide (g.parameters = params)) = none)
    (latest : String)
    (hnext : nextDataFile (entry.files.map (fun f => f.file_name)) = .ok latest) :
    register r key schema params =
      (.ok ⟨keyPath r.data_dir key ++ "/" ++ latest, false⟩,
       { r with registry :=
           (dictSet r.registry key
             { entry with files :=
                 (entry.files ++ [⟨keyPath r.data_dir key ++ "/" ++ latest, params, false⟩]) }) }) := by
  simp [register, validate_schema, hfind, hs, hslot, hnext]

theorem register_alloc_err {σ π : Type} [DecidableEq σ] [DecidableEq π]
    (r : DataRegistry σ π) (key : String) (schema : σ) (params : π)
    (entry : RegistryEntry σ π) (hfind : dictFind r.registry key = some entry)
    (hs : entry.schema = schema)
    (hslot : entry.files.find? (fun g => decide (g.parameters = params)) = none)
    (e : PyError)
    (hnext : nextDataFile (entry.files.map (fun f => f.file_name)) = .error e) :
    register r key schema params = (.error e, r) := by
  simp [register, validate_schema, hfind, hs, hslot, hnext]

theorem setFirstWritten_slots {π : Type} (fn : String) :
    ∀ (files files' : List (FileSlot π)), setFirstWritten files fn = some files' →
      ∀ (i : Nat) (f : FileSlot π), files[i]? = some f →
        ∃ g, files'[i]? = some g ∧ slotLe f g := by
  intro files
  induction files with
  | nil => intro files' h; simp [setFirstWritten] at h
  | cons f0 rest ih =>
    intro files' h i f hf
    by_cases h0 : f0.file_name = fn
    · simp [setFirstWritten, h0] at h
      subst h
      match i with
      | 0 =>
        simp at hf
        subst hf
        exact ⟨⟨fn, f0.parameters, true⟩, by simp, by simp [slotLe, h0]⟩
      | i + 1 =>
        simp at hf ⊢
        exact ⟨f, hf, slotLe_refl f⟩
    · simp [setFirstWritten, h0] at h
      obtain ⟨rest', hrest, hfiles⟩ := h
      subst hfiles
      match i with
      | 0 =>
        simp at hf
        subst hf
        exact ⟨f0, by simp, slotLe_refl f0⟩
      | i + 1 =>
        simp at hf ⊢
        exact ih rest' hrest i f hf

theorem setFirstWritten_eq_none {π : Type} (fn : String) :
    ∀ files : List (FileSlot π),
      setFirstWritten files fn = none ↔ ∀ f ∈ files, f.file_name ≠ fn := by
  intro files
  induction files with
  | nil => simp [setFirstWritten]
  | cons f0 rest ih =>
    by_cases h0 : f0.file_name = fn
    · simp [setFirstWritten, h0]
    · simp [setFirstWritten, h0, ih]

theorem setFirstWritten_eq_some {π : Type} (fn : String) :
    ∀ (files files' : List (FileSlot π)), setFirstWritten files fn = some files' →
      ∃ (i : Nat) (f : FileSlot π), files[i]? = some f ∧ f.file_name = fn ∧
        (∀ (j : Nat) (g : FileSlot π), j < i → files[j]? = some g → g.file_name ≠ fn) ∧
        files' = files.set i { f with is_marked_written := true } := by
  intro files
  induction files with
  | nil => intro files' h; simp [setFirstWritten] at h
  | cons f0 rest ih =>
    intro files' h
    by_cases h0 : f0.file_name = fn
    · simp [setFirstWritten, h0] at h
      subst h
      exact ⟨0, f0, by simp, h0, by simp, by simp [h0]⟩
    · simp [setFirstWritten, h0] at h
      obtain ⟨rest', hrest, hfiles⟩ := h
      subst hfiles
      obtain ⟨i, f, hget, hname, hfirst, hset⟩ := ih rest' hrest
      refine ⟨i + 1, f, by simpa using hget, hname, ?_, by simp [hset]⟩
      intro j g hj hg
      match j with
      | 0 =>
        simp at hg
        subst hg
        exact h0
      | j + 1 =>
        simp at hg
        exact hfirst j g (by omega) hg

theorem register_regLe {σ π : Type} [DecidableEq σ] [DecidableEq π]
    (r : DataRegistry σ π) (key : String) (schema : σ) (params : π) :
    regLe r.registry (register r key schema params).2.registry := by
  cases hfind : dictFind r.registry key with
  | none =>
    rw [register_fresh r key schema params hfind]
    intro k e he
    have hk : k ≠ key := by
      intro hkk
      subst hkk
      rw [hfind] at he
      cases he
    rw [dictFind_dictSet_ne _ _ _ _ hk, dictFind_dictSet_ne _ _ _ _ hk]
    exact ⟨e, he, entryLe_refl e⟩
  | some entry =>
    by_cases hs : entry.schema = schema
    · cases hslot : entry.files.find? (fun g => decide (g.parameters = params)) with
      | some f =>
        rw [register_hit r key schema params entry hfind hs f hslot]
        exact regLe_refl _
      | none =>
        cases hnext : nextDataFile (entry.files.map (fun f => f.file_name)) with
        | error e =>
          rw [register_alloc_err r key schema params entry hfind hs hslot e hnext]
          exact regLe_refl _
        | ok latest =>
          rw [register_alloc r key schema params entry hfind hs hslot latest hnext]
          intro k e he
          by_cases hk : k = key
          · subst hk
            rw [hfind] at he
            injection he with he
            subst he
            refine ⟨_, dictFind_dictSet_self _ _ _, rfl, ?_⟩
            intro i f hf
            have hi : i < entry.files.length := by
              rcases List.getElem?_eq_some_iff.mp hf with ⟨hi, _⟩
              exact hi
            refine ⟨f, ?_, slotLe_refl f⟩
            rw [List.getElem?_append_left hi]
            exact hf
          · rw [dictFind_dictSet_ne _ _ _ _ hk]
            exact ⟨e, he, entryLe_refl e⟩
    · rw [register_conflict r key schema params entry hfind hs]
      exact regLe_refl _

theorem mark_written_regLe {σ π : Type} (r : DataRegistry σ π) (key file_name : String) :
    regLe r.registry (mark_written r key file_name).2.registry := by
  cases hfind : dictFind r.registry key with
  | none =>
    simp [mark_written, hfind]
    exact regLe_refl _
  | some entry =>
    cases hset : setFirstWritten entry.files file_name with
    | none =>
      simp [mark_written, hfind, hset]
      exact regLe_refl _
    | some files' =>
      simp only [mark_written, hfind, hset]
      intro k e he
      by_cases hk : k = key
      · subst hk
        rw [hfind] at he
        injection he with he
        subst he
        exact ⟨_, dictFind_dictSet_self _ _ _, rfl,
          setFirstWritten_slots file_name entry.files files' hset⟩
      · rw [dictFind_dictSet_ne _ _ _ _ hk]
        exact ⟨e, he, entryLe_refl e⟩

theorem applyOp_regLe {σ π : Type} [DecidableEq σ] [DecidableEq π]
    (r : DataRegistry σ π) (op : RegOp σ π) :
    regLe r.registry (applyOp r op).registry := by
  cases op with
  | reg key schema params => exact register_regLe r key schema params
  | mark key file_name => exact mark_written_regLe r key file_name

theorem register_ok_slot {σ π : Type} [DecidableEq σ] [DecidableEq π]
    {r r' : DataRegistry σ π} {key : String} {schema : σ} {params : π}
    {rf : RegisteredFile}
    (h : register r key schema params = (.ok rf, r')) :
    ∃ entry, dictFind r'.registry key = some entry ∧
      ∃ f, f ∈ entry.files ∧ f.file_name = rf.file_name ∧
        f.is_marked_written = rf.is_marked_written := by
  cases hfind : dictFind r.registry key with
  | none =>
    rw [register_fresh r key schema params hfind] at h
    injection h with h1 h2
    injection h1 with h1
    subst h1
    subst h2
    refine ⟨_, dictFind_dictSet_self _ _ _, ?_⟩
    exact ⟨_, List.mem_singleton.mpr rfl, rfl, rfl⟩
  | some entry =>
    by_cases hs : entry.schema = schema
    · cases hslot : entry.files.find? (fun g => decide (g.parameters = params)) with
      | some f =>
        rw [register_hit r key schema params entry hfind hs f hslot] at h
        injection h with h1 h2
        injection h1 with h1
        subst h1
        subst h2
        exact ⟨entry, hfind, f, List.mem_of_find?_eq_some hslot, rfl, rfl⟩
      | none =>
        cases hnext : nextDataFile (entry.files.map (fun f => f.file_name)) with
        | error e =>
          rw [register_alloc_err r key schema params entry hfind hs hslot e hnext] at h
          injection h with h1 h2
          simp at h1
        | ok latest =>
          rw [register_alloc r key schema params entry hfind hs hslot latest hnext] at h
          injection h with h1 h2
          injection h1 with h1
          subst h1
          subst h2
          refine ⟨_, dictFind_dictSet_self _ _ _, ?_⟩
          refine ⟨_, List.mem_append_right _ (List.mem_singleton.mpr rfl), rfl, rfl⟩
    · rw [register_conflict r key schema params entry hfind hs] at h
      injection h with h1 h2
      simp at h1

theorem cached_read_producer_error {σ π ρ τ : Type} [DecidableEq σ] [DecidableEq π]
    (p : Provider σ π ρ τ) (st : PState σ π ρ) (rf : RegisteredFile)
    (reg' : DataRegistry σ π) (e : PyError)
    (hreg : register st.reg p.key p.schema p.params = (.ok rf, reg'))
    (hunw : rf.is_marked_written = false)
    (hfail : p.fails = some e) :
    cached_read p st = (.error e, ⟨reg', dictSet st.fs rf.file_name p.records⟩, true) := by
  simp [cached_read, hreg, hunw, hfail]

theorem nextDataFile_error (files : List String) (e : PyError)
    (h : nextDataFile files = .error e) :
    ∃ seg, e = .valueError ("invalid literal for int with base 10: " ++ seg) := by
  by_cases hemp : files.isEmpty
  · simp [nextDataFile, hemp] at h
  · cases hint : pyInt? (lastUnderscoreSeg (splitextRoot (pyStrMax files))) with
    | none =>
      simp [nextDataFile, hemp, hint] at h
      exact ⟨_, h.symm⟩
    | some n =>
      simp [nextDataFile, hemp, hint] at h

theorem ne_of_head_append (a b t : String) (c : Char)
    (ha : a.data.head? = some c) (hb : b.data.head? ≠ some c) : a ++ t ≠ b := by
  intro h
  apply hb
  rw [← h]
  rw [String.data_append, List.head?_append, ha]
  rfl

theorem register_no_config_error {σ π : Type} [DecidableEq σ] [DecidableEq π]
    (r : DataRegistry σ π) (key : String) (schema : σ) (params : π) :
    (register r key schema params).1 ≠
      .error (.valueError "Environment variable DATA_CACHE_DIR is not set.") := by
  cases hfind : dictFind r.registry key with
  | none => simp [register_fresh r key schema params hfind]
  | some entry =>
    by_cases hs : entry.schema = schema
    · cases hslot : entry.files.find? (fun g => decide (g.parameters = params)) with
      | some f => simp [register_hit r key schema params entry hfind hs f hslot]
      | none =>
        cases hnext : nextDataFile (entry.files.map (fun f => f.file_name)) with
        | ok latest =>
          simp [register_alloc r key schema params entry hfind hs hslot latest hnext]
        | error e =>
          rw [register_alloc_err r key schema params entry hfind hs hslot e hnext]
          obtain ⟨seg, rfl⟩ := nextDataFile_error _ e hnext
          intro h
          injection h with h
          injection h with h
          exact ne_of_head_append "invalid literal for int with base 10: "
            "Environment variable DATA_CACHE_DIR is not set." seg 'i'
            (by decide) (by decide) h
    · rw [register_conflict r key schema params entry hfind hs]
      intro h
      injection h with h
      injection h with h
      have h1 : "Schema for ".data.head? = some 'S' := by decide
      have ha : ("Schema for " ++ key).data.head? = some 'S' := by
        rw [String.data_append, List.head?_append, h1]
        rfl
      exact ne_of_head_append ("Schema for " ++ key)
        "Environment variable DATA_CACHE_DIR is not set." " is not valid." 'S'
        ha (by decide) h

theorem mark_written_no_config_error {σ π : Type} (r : DataRegistry σ π)
    (key file_name : String) :
    (mark_written r key file_name).1 ≠
      .error (.valueError "Environment variable DATA_CACHE_DIR is not set.") := by
  cases hfind : dictFind r.registry key with
  | none => simp [mark_written, hfind]
  | some entry =>
    cases hset : setFirstWritten entry.files file_name with
    | some files' => simp [mark_written, hfind, hset]
    | none =>
      simp only [mark_written, hfind, hset]
      intro h
      injection h with h
      injection h with h
      have h1 : "File ".data.head? = some 'F' := by decide
      have ha : ("File " ++ file_name).data.head? = some 'F' := by
        rw [String.data_append, List.head?_append, h1]
        rfl
      exact ne_of_head_append ("File " ++ file_name)
        "Environment variable DATA_CACHE_DIR is not set." " not found in registry." 'F'
        ha (by decide) h

/-- Claim C3: `register` is idempotent.  For a key already recorded with a
structurally equal schema and holding a slot whose parameters structurally
equal the given ones, `register` returns that (first matching) slot's
descriptor unchanged — same `file_name` and same `is_marked_written` flag —
creates no second slot, and leaves the whole registry state unchanged. -/
theorem register_idempotent {σ π : Type} [DecidableEq σ] [DecidableEq π]
    (r : DataRegistry σ π) (key : String) (schema : σ) (params : π)
    (entry : RegistryEntry σ π) (f : FileSlot π)
    (hfind : dictFind r.registry key = some entry)
    (hs : entry.schema = schema)
    (hslot : entry.files.find? (fun g => decide (g.parameters = params)) = some f) :
    register r key schema params = (.ok ⟨f.file_name, f.is_marked_written⟩, r) :=
  register_hit r key schema params entry hfind hs f hslot

theorem register_idempotent_witness :
    dictFind twoSlotReg.registry "k" = some twoSlotEntry
    ∧ twoSlotEntry.schema = "s"
    ∧ twoSlotEntry.files.find? (fun g => decide (g.parameters = (1 : Nat))) =
        some ⟨"d/k/data_1.avro", 1, false⟩
    ∧ register twoSlotReg "k" "s" (1 : Nat) =
        (.ok ⟨"d/k/data_1.avro", false⟩, twoSlotReg) :=
  ⟨by decide, by decide, by decide,
   register_idempotent twoSlotReg "k" "s" 1 twoSlotEntry ⟨"d/k/data_1.avro", 1, false⟩
     (by decide) (by decide) (by decide)⟩

/-- Claim C4: a key's schema is immutable once recorded.  Registering an
existing key with a structurally different schema fails with the schema
conflict error and changes nothing, regardless of the parameters passed;
moreover no `register` or `mark_written` call ever replaces the schema
stored for any key. -/
theorem schema_immutable {σ π : Type} [DecidableEq σ] [DecidableEq π]
    (r : DataRegistry σ π) (key : String) (schema : σ) (params : π)
    (entry : RegistryEntry σ π)
    (hfind : dictFind r.registry key = some entry)
    (hs : entry.schema ≠ schema) :
    register r key schema params =
      (.error (.valueError ("Schema for " ++ key ++ " is not valid.")), r)
    ∧ (∀ (r' : DataRegistry σ π) (k : String) (s : σ) (p : π) (k2 : String)
         (e : RegistryEntry σ π), dictFind r'.registry k2 = some e →
         ∃ e2, dictFind (register r' k s p).2.registry k2 = some e2 ∧
           e2.schema = e.schema)
    ∧ (∀ (r' : DataRegistry σ π) (k fn k2 : String) (e : RegistryEntry σ π),
         dictFind r'.registry k2 = some e →
         ∃ e2, dictFind (mark_written r' k fn).2.registry k2 = some e2 ∧
           e2.schema = e.schema) := by
  refine ⟨register_conflict r key schema params entry hfind hs, ?_, ?_⟩
  · intro r' k s p k2 e he
    obtain ⟨e2, he2, hle⟩ := register_regLe r' k s p k2 e he
    exact ⟨e2, he2, hle.1⟩
  · intro r' k fn k2 e he
    obtain ⟨e2, he2, hle⟩ := mark_written_regLe r' k fn k2 e he
    exact ⟨e2, he2, hle.1⟩

theorem schema_immutable_witness :
    dictFind twoSlotReg.registry "k" = some twoSlotEntry
    ∧ twoSlotEntry.schema ≠ "t"
    ∧ register twoSlotReg "k" "t" (0 : Nat) =
        (.error (.valueError ("Schema for " ++ "k" ++ " is not valid.")), twoSlotReg) :=
  ⟨by decide, by decide,
   (schema_immutable twoSlotReg "k" "t" 0 twoSlotEntry (by decide) (by decide)).1⟩

/-- Claim C5: for a registered key, `mark_written` locates the first slot
whose file name exactly equals the given one, sets its flag to true,
persists, and returns the updated descriptor; when no slot under the key
has that file name it fails with the file-not-found error and the state is
unchanged. -/
theorem mark_written_spec {σ π : Type}
    (r : DataRegistry σ π) (key : String) (entry : RegistryEntry σ π)
    (file_name : String)
    (hfind : dictFind r.registry key = some entry) :
    ((∀ f ∈ entry.files, f.file_name ≠ file_name) →
      mark_written r key file_name =
        (.error (.valueError ("File " ++ file_name ++ " not found in registry.")), r))
    ∧ ((∃ f ∈ entry.files, f.file_name = file_name) →
      ∃ (i : Nat) (f : FileSlot π), entry.files[i]? = some f ∧
        f.file_name = file_name ∧
        (∀ (j : Nat) (g : FileSlot π), j < i → entry.files[j]? = some g →
           g.file_name ≠ file_name) ∧
        mark_written r key file_name =
          (.ok ⟨file_name, true⟩,
           { r with registry :=
               (dictSet r.registry key
                 { entry with files :=
                     (entry.files.set i { f with is_marked_written := true }) }) })) := by
  constructor
  · intro hnone
    have hset : setFirstWritten entry.files file_name = none :=
      (setFirstWritten_eq_none file_name entry.files).mpr hnone
    simp [mark_written, hfind, hset]
  · intro hex
    cases hset : setFirstWritten entry.files file_name with
    | none =>
      obtain ⟨f, hf, hname⟩ := hex
      exact absurd hname ((setFirstWritten_eq_none file_name entry.files).mp hset f hf)
    | some files' =>
      obtain ⟨i, f, hget, hname, hfirst, hfiles⟩ :=
        setFirstWritten_eq_some file_name entry.files files' hset
      refine ⟨i, f, hget, hname, hfirst, ?_⟩
      simp [mark_written, hfind, hset, hfiles]

theorem mark_written_spec_witness :
    dictFind twoSlotReg.registry "k" = some twoSlotEntry
    ∧ mark_written twoSlotReg "k" "d/k/data_2.avro" =
        (.error (.valueError ("File " ++ "d/k/data_2.avro" ++ " not found in registry.")),
         twoSlotReg) :=
  ⟨by decide,
   (mark_written_spec twoSlotReg "k" twoSlotEntry "d/k/data_2.avro" (by decide)).1
     (by decide)⟩

/-- Claim C6: under every sequence of `register` and `mark_written` calls,
every slot's written flag is monotone — it moves only from false to true
and never reverts — and no registry entry or slot is ever deleted: each
key stays present with the same schema, and each slot stays at its
position with the same file name and parameters. -/
theorem registry_flags_monotone {σ π : Type} [DecidableEq σ] [DecidableEq π]
    (r : DataRegistry σ π) (ops : List (RegOp σ π)) :
    regLe r.registry ((ops.foldl applyOp r).registry) := by
  induction ops generalizing r with
  | nil => exact regLe_refl _
  | cons op rest ih => exact regLe_trans (applyOp_regLe r op) (ih (applyOp r op))

theorem registry_flags_monotone_witness :
    regLe twoSlotReg.registry
      (([RegOp.mark "k" "d/k/data_1.avro", RegOp.reg "k" "s" (7 : Nat)].foldl
          applyOp twoSlotReg).registry) :=
  registry_flags_monotone twoSlotReg _

/-- Claim C7: when `get_records()` raises during production inside
`cached_read`, the error propagates to the caller unswallowed, the final
registry is exactly the post-`register` one — so `mark_written` was never
invoked — and the slot remains recorded as unwritten. -/
theorem cached_read_error_propagates {σ π ρ τ : Type} [DecidableEq σ] [DecidableEq π]
    (p : Provider σ π ρ τ) (st : PState σ π ρ) (rf : RegisteredFile)
    (reg' : DataRegistry σ π) (e : PyError)
    (hreg : register st.reg p.key p.schema p.params = (.ok rf, reg'))
    (hunw : rf.is_marked_written = false)
    (hfail : p.fails = some e) :
    cached_read p st = (.error e, ⟨reg', dictSet st.fs rf.file_name p.records⟩, true)
    ∧ ∃ entry, dictFind reg'.registry p.key = some entry ∧
        ∃ f, f ∈ entry.files ∧ f.file_name = rf.file_name ∧
          f.is_marked_written = false := by
  refine ⟨cached_read_producer_error p st rf reg' e hreg hunw hfail, ?_⟩
  obtain ⟨entry, hentry, f, hmem, hfn, hw⟩ := register_ok_slot hreg
  exact ⟨entry, hentry, f, hmem, hfn, by rw [hw, hunw]⟩

theorem cached_read_error_propagates_witness :
    register emptyState.reg failProv.key failProv.schema failProv.params =
        (.ok ⟨"d/k/data_0.avro", false⟩, failReg')
    ∧ (cached_read failProv emptyState =
        (.error (.valueError "boom"),
         ⟨failReg', dictSet emptyState.fs "d/k/data_0.avro" failProv.records⟩, true)
       ∧ ∃ entry, dictFind failReg'.registry failProv.key = some entry ∧
           ∃ f, f ∈ entry.files ∧ f.file_name = "d/k/data_0.avro" ∧
             f.is_marked_written = false) :=
  ⟨by decide,
   cached_read_error_propagates failProv emptyState ⟨"d/k/data_0.avro", false⟩ failReg'
     (.valueError "boom") (by decide) rfl rfl⟩

/-- Claim C8: constructing a `DataRegistry` with no explicit directory and
no `DATA_CACHE_DIR` environment value fails at construction with the
configuration `ValueError`; that error is never produced later by
`register` or `mark_written`. -/
theorem init_requires_dir_config {σ π : Type} [DecidableEq σ] [DecidableEq π]
    (fs : InitFs σ π) (r : DataRegistry σ π) (key : String) (schema : σ)
    (params : π) (file_name : String) :
    DataRegistry.init none none fs =
      (.error (.valueError "Environment variable DATA_CACHE_DIR is not set.")
        : Except PyError (DataRegistry σ π))
    ∧ (register r key schema params).1 ≠
        .error (.valueError "Environment variable DATA_CACHE_DIR is not set.")
    ∧ (mark_written r key file_name).1 ≠
        .error (.valueError "Environment variable DATA_CACHE_DIR is not set.") :=
  ⟨rfl, register_no_config_error r key schema params,
   mark_written_no_config_error r key file_name⟩

theorem init_requires_dir_config_witness :
    @DataRegistry.init String Nat none none ⟨false, none⟩ =
      .error (.valueError "Environment variable DATA_CACHE_DIR is not set.")
    ∧ (register twoSlotReg "k" "s" (0 : Nat)).1 ≠
        .error (.valueError "Environment variable DATA_CACHE_DIR is not set.")
    ∧ (mark_written twoSlotReg "k" "x").1 ≠
        .error (.valueError "Environment variable DATA_CACHE_DIR is not set.") :=
  init_requires_dir_config ⟨false, none⟩ twoSlotReg "k" "s" 0 "x"

/-- Claim C9: when the resolved data directory already exists but holds no
`data_registry.json` index document, construction raises (the
existing-directory branch unconditionally opens the index for reading and
never creates an empty index), whether the directory came from the
explicit argument or from the environment variable. -/
theorem init_existing_dir_missing_index {σ π : Type} (d : String) (env : Option String) :
    @DataRegistry.init σ π (some d) env ⟨true, none⟩ =
        .error (.fileNotFoundError (d ++ "/data_registry.json"))
    ∧ @DataRegistry.init σ π none (some d) ⟨true, none⟩ =
        .error (.fileNotFoundError (d ++ "/data_registry.json")) := by
  constructor <;> simp [DataRegistry.init, initWithDir]

theorem init_existing_dir_missing_index_witness :
    @DataRegistry.init String Nat (some "d") none ⟨true, none⟩ =
      .error (.fileNotFoundError ("d" ++ "/data_registry.json")) :=
  (init_existing_dir_missing_index "d" none).1

/-- Claim C10: `mark_written` on a key that was never registered raises the
key-lookup error (`KeyError`, not the file-not-found `ValueError`) before
any slot search, and the registry state is unchanged. -/
theorem mark_written_unregistered_key {σ π : Type} (r : DataRegistry σ π)
    (key file_name : String) (h : dictFind r.registry key = none) :
    mark_written r key file_name = (.error (.keyError key), r) := by
  simp [mark_written, h]

theorem mark_written_unregistered_key_witness :
    dictFind (⟨"d", []⟩ : DataRegistry String Nat).registry "k" = none
    ∧ mark_written (⟨"d", []⟩ : DataRegistry String Nat) "k" "f.avro" =
        (.error (.keyError "k"), ⟨"d", []⟩) :=
  ⟨rfl, mark_written_unregistered_key _ "k" "f.avro" rfl⟩

set_option maxRecDepth 10000

/-- Claim C2, refuted on the code: after eleven distinct-parameter
registrations under key `"k"` the recorded files are `data_0.avro` through
`data_10.avro` (numeric maximum suffix 10), yet the twelfth registration
allocates `data_10.avro` again — one more than the suffix of the
lexicographically greatest name `data_9.avro` — duplicating an existing
file name instead of producing `data_11.avro` as numeric-maximum
numbering requires. -/
theorem register_reuses_suffix_after_ten :
    ((dictFind (distinctParamState 11).registry "k").map
        (fun e => e.files.map (fun f => f.file_name))) =
      some ["d/k/data_0.avro", "d/k/data_1.avro", "d/k/data_2.avro", "d/k/data_3.avro",
            "d/k/data_4.avro", "d/k/data_5.avro", "d/k/data_6.avro", "d/k/data_7.avro",
            "d/k/data_8.avro", "d/k/data_9.avro", "d/k/data_10.avro"]
    ∧ (register (distinctParamState 11) "k" "s" 11).1 =
        .ok ⟨"d/k/data_10.avro", false⟩
    ∧ ((dictFind (register (distinctParamState 11) "k" "s" 11).2.registry "k").map
        (fun e => e.files.countP (fun f => f.file_name = "d/k/data_10.avro"))) =
      some 2 := by
  decide

/-- Claim C1, refuted on the code: after the providers with parameter maps
0 through 10 have each completed one successful `cached_read` under key
`"k"`, the provider with parameter map 11 is allocated the duplicate file
name `data_10.avro`; its first `cached_read` completes successfully
(returning its records and invoking production), but `mark_written` flips
the earlier slot with that name, so a second `cached_read` of the very
same provider invokes `get_records()` again — production runs twice for
one slot. -/
theorem cached_read_production_rerun :
    (cached_read (collProvider 11) collState11).1 = .ok [11]
    ∧ (cached_read (collProvider 11) collState11).2.2 = true
    ∧ (cached_read (collProvider 11)
        ((cached_read (collProvider 11) collState11).2.1)).2.2 = true := by
  decide

end Aconai
